/-
Verification of the SAKHI real-time voice translation pipeline.

Shallow embedding of the core components:
  * `Sakhi.translate` — `MBARTTranslator.translate` (sakhi/translator.py):
    translation with an in-process cache keyed by
    `(src_lang, tgt_lang, text.strip())`.
  * `Sakhi.llmCall` — the language validation performed by
    `TranslatorLLM._call` (sakhi/langchain_llm.py) before it delegates to
    `translate`.  The prompt round-trip (the `TRANSLATE from ... to ...`
    formatting followed by the regex parse and lower-casing in `_call`) is the
    identity on the lower-case language codes and stripped text the run loop
    supplies, so it is not re-modelled here.
  * `Sakhi.speak` — `TextToSpeech.speak` (sakhi/tts.py): pyttsx3 / gTTS
    fallback chain ending in a console print.  The availability and success of
    the two backends are inputs (`TTSEnv`), mirroring the try/except structure.
  * `Sakhi.runCycle` / `Sakhi.runLoop` — `RealtimeTranslator._run_loop`
    (sakhi/realtime.py): one iteration of the capture → gate → transcribe →
    resolve → translate → speak loop, and the loop over the chunks observed
    while `self.running` stays true.  Each cycle's external effects (recorded
    audio, STT outcome, TTS backend behaviour) are given as per-cycle inputs.

The neural translation engine is modelled as an arbitrary function from the
input text and the two mapped MBART locale codes to an output string.
Audio samples are modelled as rationals (the Python code uses float32).
Python string primitives (`str.strip`, `str.upper`, `str.lower`, slicing)
are modelled directly on the character list of a `String`, because the core
library's position-based versions do not reduce in the kernel.
-/

import Mathlib

set_option maxHeartbeats 1000000

namespace Sakhi

/-! ### Python string primitives -/

/-- Python `str.strip()`: drop leading and trailing whitespace. -/
def strip (s : String) : String :=
  ⟨(((s.data.dropWhile Char.isWhitespace).reverse.dropWhile Char.isWhitespace).reverse)⟩

/-- Python `str.upper()` (ASCII, which covers the language codes used). -/
def upper (s : String) : String := ⟨s.data.map Char.toUpper⟩

/-- Python `str.lower()` (ASCII, which covers the language codes used). -/
def lower (s : String) : String := ⟨s.data.map Char.toLower⟩

/-- Python `s[:2]`: the first two characters. -/
def take2 (s : String) : String := ⟨s.data.take 2⟩

/-! ### Translator (sakhi/translator.py) -/

/-- Cache key: `(src_lang, tgt_lang, text.strip())` as built in
`MBARTTranslator.translate`. -/
abbrev CacheKey := String × String × String

/-- The translation cache `self.cache : Dict[tuple, str]`. -/
abbrev Cache := List (CacheKey × String)

/-- Dictionary lookup (`cache_key in self.cache` / `self.cache[cache_key]`). -/
def cacheLookup : Cache → CacheKey → Option String
  | [], _ => none
  | (k, v) :: rest, key => if k = key then some v else cacheLookup rest key

/-- Association-list lookup used for the language-code maps. -/
def assocLookup : List (String × String) → String → Option String
  | [], _ => none
  | (k, v) :: rest, key => if key = k then some v else assocLookup rest key

/-- `MBARTTranslator.LANG_CODE_MAP`: two-letter codes to MBART-50 locale
tokens. -/
def LANG_CODE_MAP : List (String × String) :=
  [("en", "en_XX"), ("hi", "hi_IN"), ("te", "te_IN"), ("ta", "ta_IN"), ("kn", "kn_IN")]

/-- Membership test `lang in MBARTTranslator.LANG_CODE_MAP`. -/
def isSupported (lang : String) : Bool :=
  (assocLookup LANG_CODE_MAP lang).isSome

/-- The list `supported = ["en", "hi", "te", "ta", "kn"]` used by
`TranslatorLLM._call` and `RealtimeTranslator.__init__`. -/
def supportedList : List String := ["en", "hi", "te", "ta", "kn"]

/-- The translation engine: `model.generate` + decoding, seen as a function of
the input text and the two mapped locale codes. -/
abbrev Engine := String → String → String → String

/-- `MBARTTranslator.translate(text, src_lang, tgt_lang)`.

Returns the result (`.ok` translation or `.error` message for the Python
`ValueError`), the cache after the call, and whether the translation engine
was invoked.  Control flow follows the source: cache lookup first, then
validation of both codes against `LANG_CODE_MAP`, then the engine call whose
result is stored under the key before being returned.  Note the engine
receives the raw `text` while the cache key uses `text.strip()`. -/
def translate (engine : Engine) (cache : Cache) (text src tgt : String) :
    Except String String × Cache × Bool :=
  let key : CacheKey := (src, tgt, strip text)
  match cacheLookup cache key with
  | some v => (.ok v, cache, false)
  | none =>
    match assocLookup LANG_CODE_MAP src with
    | none => (.error ("Unsupported source language: " ++ src), cache, false)
    | some srcCode =>
      match assocLookup LANG_CODE_MAP tgt with
      | none => (.error ("Unsupported target language: " ++ tgt), cache, false)
      | some tgtCode =>
        let translation := engine text srcCode tgtCode
        (.ok translation, (key, translation) :: cache, true)

/-! ### LangChain wrapper (sakhi/langchain_llm.py) -/

/-- `TranslatorLLM._call` after prompt parsing: validate both codes against
`supportedList` (raising `ValueError` on failure) and then delegate to
`MBARTTranslator.translate` with the stripped text. -/
def llmCall (engine : Engine) (cache : Cache) (src tgt text : String) :
    Except String String × Cache × Bool :=
  if src ∈ supportedList then
    if tgt ∈ supportedList then
      translate engine cache (strip text) src tgt
    else
      (.error ("Unsupported target language: " ++ tgt), cache, false)
  else
    (.error ("Unsupported source language: " ++ src), cache, false)

/-! ### Text to speech (sakhi/tts.py) -/

/-- `TextToSpeech.GTTS_LANG_MAP`. -/
def GTTS_LANG_MAP : List (String × String) :=
  [("en", "en"), ("hi", "hi"), ("te", "te"), ("ta", "ta"), ("kn", "kn")]

/-- Environment of a `speak` call: whether `self.pyttsx3_engine` is non-None,
the `use_gtts_fallback` flag, and whether each backend call would succeed
(false = the backend raises, which `speak` catches). -/
structure TTSEnv where
  pyttsx3Available : Bool
  useGttsFallback : Bool
  pyttsx3Ok : Bool
  gttsOk : Bool
deriving DecidableEq, Repr

/-- Observable outcome of one `speak` call: which backends were attempted and
the console line printed by the final fallback, if any. -/
structure SpeakOutcome where
  pyttsx3Attempted : Bool
  gttsAttempted : Bool
  consolePrinted : Option String
deriving DecidableEq, Repr

/-- The line printed by the final fallback, built as in the source from a
newline, the upper-cased language code in brackets, and the text. -/
def consoleLine (text language : String) : String :=
  "\n[" ++ upper language ++ "] " ++ text ++ "\n"

/-- The gTTS stage of `speak` followed by the console fallback (lines 72–82 of
tts.py): attempt gTTS when the fallback is enabled and the language is in
`GTTS_LANG_MAP`; on failure or unavailability print the console line. -/
def gttsStage (env : TTSEnv) (text language : String) (pAttempted : Bool) : SpeakOutcome :=
  if env.useGttsFallback ∧ (assocLookup GTTS_LANG_MAP language).isSome then
    if env.gttsOk then ⟨pAttempted, true, none⟩
    else ⟨pAttempted, true, some (consoleLine text language)⟩
  else ⟨pAttempted, false, some (consoleLine text language)⟩

/-- `TextToSpeech.speak(text, language)`.  Empty-after-strip text returns at
once; otherwise pyttsx3 is tried only when available and the language is
English, then the gTTS stage runs, and the console print is the guaranteed
last resort.  Every backend failure is caught inside `speak`, so the function
is total: no exception escapes. -/
def speak (env : TTSEnv) (text language : String) : SpeakOutcome :=
  if strip text = "" then ⟨false, false, none⟩
  else if env.pyttsx3Available ∧ language = "en" then
    if env.pyttsx3Ok then ⟨true, false, none⟩
    else gttsStage env text language true
  else gttsStage env text language false

/-! ### Orchestrator (sakhi/realtime.py) -/

/-- Mean of the squared samples, `np.mean(audio ** 2)` (the mean of an empty
chunk is taken as 0, matching the false gate decision NumPy produces there). -/
def meanSq (audio : List ℚ) : ℚ :=
  ((audio.map fun x => x * x).sum) / (audio.length : ℚ)

/-- `RealtimeTranslator._has_speech(audio, threshold=0.01)`.  The source
compares `np.sqrt(np.mean(audio ** 2)) > 0.01`; on rationals this is computed
by the equivalent squared comparison `np.mean(audio ** 2) > 0.01 ** 2`, and
the equivalence with the root-mean-square form is proved in the gate theorem
below. -/
def hasSpeech (audio : List ℚ) : Bool :=
  decide ((1 / 10000 : ℚ) < meanSq audio)

/-- The speech-gate decision exactly as written in the source: the
root-mean-square energy `sqrt(mean(audio ** 2))`, compared against the fixed
threshold 0.01. -/
def HasSpeechRms (audio : List ℚ) : Prop :=
  (1 / 100 : ℝ) < Real.sqrt ((meanSq audio : ℚ) : ℝ)

/-- Language normalization in the run loop: `actual_src[:2].lower()`. -/
def normalizeLang (s : String) : String := lower (take2 s)

/-- Result of `WhisperSTT.transcribe`: text and detected language. -/
structure Transcript where
  text : String
  language : String
deriving DecidableEq, Repr

/-- The per-cycle external world: the outcome of `_record_audio` (which may
raise), the outcome of `stt.transcribe` for this chunk (which may raise), and
the synthesis backend behaviour for this cycle. -/
structure CycleInput where
  record : Except String (List ℚ)
  transcript : Except String Transcript
  tts : TTSEnv

/-- How one loop iteration ended. -/
inductive CycleOutcome where
  | noSpeech
  | emptyTranscription
  | sameLanguage (lang : String)
  | completed (translation : String) (spoken : SpeakOutcome)
  | errored (msg : String)
deriving DecidableEq, Repr

/-- Observable trace of one loop iteration: the outcome, which pipeline stages
were invoked, and whether the error handler's brief pause (`time.sleep(0.5)`)
ran. -/
structure CycleTrace where
  outcome : CycleOutcome
  sttCalled : Bool
  translatorCalled : Bool
  ttsCalled : Bool
  paused : Bool
deriving DecidableEq, Repr

/-- The orchestrator's fixed configuration: the configured source language
(possibly `"auto"`), the configured target language, and the translation
engine behaviour. -/
structure Session where
  srcLang : String
  tgtLang : String
  engine : Engine

/-- Effective source language of a cycle: the detected language when
configured as auto-detect, otherwise the configured source, normalized to its
first two characters lower-cased. -/
def resolveSrc (cfg : Session) (t : Transcript) : String :=
  normalizeLang (if cfg.srcLang = "auto" then t.language else cfg.srcLang)

/-- One iteration of `RealtimeTranslator._run_loop` (the body of the
`while self.running` loop).  The `try` block records a chunk, gates it on
speech energy, transcribes, skips on empty text, resolves the effective
source language, skips when it equals the target, translates through the
LangChain wrapper, and speaks the translation; the `except` branch catches
any exception raised by a stage, records it, and pauses briefly.  The
function returns the cache after the iteration and the iteration's trace. -/
def runCycle (cfg : Session) (cache : Cache) (inp : CycleInput) : Cache × CycleTrace :=
  match inp.record with
  | .error e => (cache, ⟨.errored e, false, false, false, true⟩)
  | .ok audio =>
    if hasSpeech audio then
      match inp.transcript with
      | .error e => (cache, ⟨.errored e, true, false, false, true⟩)
      | .ok t =>
        if strip t.text = "" then
          (cache, ⟨.emptyTranscription, true, false, false, false⟩)
        else
          let actualSrc := resolveSrc cfg t
          if actualSrc = cfg.tgtLang then
            (cache, ⟨.sameLanguage actualSrc, true, false, false, false⟩)
          else
            match llmCall cfg.engine cache actualSrc cfg.tgtLang t.text with
            | (.error e, c, _) => (c, ⟨.errored e, true, true, false, true⟩)
            | (.ok tr, c, _) =>
              (c, ⟨.completed tr (speak inp.tts tr cfg.tgtLang), true, true, true, false⟩)
    else
      (cache, ⟨.noSpeech, false, false, false, false⟩)

/-- The run loop over the sequence of cycles executed while `self.running`
remains true, threading the translation cache (the only state shared across
cycles).  Its total type shows that nothing raised inside a cycle escapes the
loop: every cycle yields a trace and the loop proceeds to the next. -/
def runLoop (cfg : Session) : Cache → List CycleInput → List CycleTrace
  | _, [] => []
  | cache, inp :: rest =>
    let (c, tr) := runCycle cfg cache inp
    tr :: runLoop cfg c rest

/-- The silent chunk: its energy 0 is below the threshold. -/
lemma hasSpeech_silent : hasSpeech [0] = false := by simp [hasSpeech, meanSq]

/-- A full-scale chunk: its energy 1 is above the threshold. -/
lemma hasSpeech_loud : hasSpeech [1] = true := by norm_num [hasSpeech, meanSq]

/-! ### Substring containment -/

/-- The string `pat` occurs verbatim inside `s`. -/
abbrev strContains (s pat : String) : Prop := pat.data <:+: s.data

/-- A string contains its second append component. -/
lemma strContains_append_right (a b : String) : strContains (a ++ b) b :=
  ⟨a.data, [], by simp [String.data_append]⟩

/-- A string contains the middle component of a triple append. -/
lemma strContains_middle (a b c : String) : strContains (a ++ b ++ c) b :=
  ⟨a.data, c.data, by simp [String.data_append]⟩

/-- A fixed stub engine used by the concrete witnesses. -/
def stubEngine : Engine := fun _ _ _ => "X"

/-! ### Claims about the Translator -/

/-- Claim C1: for a fixed `(text, sourceLang, targetLang)` with both languages
supported and the key not yet cached, the first `translate` call invokes the
engine and stores the result under `(src, tgt, strip text)` before returning
it, and the second call with the same arguments returns the identical string
from the cache without an engine invocation — so the pair of calls yields the
same output and exactly one engine invocation. -/
theorem translate_cache_idempotent (engine : Engine) (cache : Cache) (text src tgt : String)
    (hs : isSupported src = true) (ht : isSupported tgt = true)
    (hmiss : cacheLookup cache (src, tgt, strip text) = none) :
    ∃ out c₁, translate engine cache text src tgt = (.ok out, c₁, true) ∧
      cacheLookup c₁ (src, tgt, strip text) = some out ∧
      translate engine c₁ text src tgt = (.ok out, c₁, false) := by
  unfold isSupported at hs ht
  obtain ⟨sc, hsc⟩ := Option.isSome_iff_exists.mp hs
  obtain ⟨tc, htc⟩ := Option.isSome_iff_exists.mp ht
  refine ⟨engine text sc tc, ((src, tgt, strip text), engine text sc tc) :: cache, ?_, ?_, ?_⟩
  · simp [translate, hmiss, hsc, htc]
  · simp [cacheLookup]
  · simp [translate, cacheLookup]

/-- Witness for C1 at `("Hello", en, hi)` on the empty cache. -/
theorem translate_cache_idempotent_witness :
    isSupported "en" = true ∧ isSupported "hi" = true ∧
    cacheLookup [] ("en", "hi", strip "Hello") = none ∧
    (∃ out c₁, translate stubEngine [] "Hello" "en" "hi" = (.ok out, c₁, true) ∧
      cacheLookup c₁ ("en", "hi", strip "Hello") = some out ∧
      translate stubEngine c₁ "Hello" "en" "hi" = (.ok out, c₁, false)) :=
  ⟨by decide, by decide, rfl,
    translate_cache_idempotent stubEngine [] "Hello" "en" "hi" (by decide) (by decide) rfl⟩

/-- Claim C3: on a cache miss with either language code outside the supported
set, `translate` fails with an error naming the offending code, does not
invoke the engine, and leaves the cache unchanged. -/
theorem translate_unsupported_rejected (engine : Engine) (cache : Cache) (text src tgt : String)
    (hmiss : cacheLookup cache (src, tgt, strip text) = none)
    (hbad : isSupported src = false ∨ isSupported tgt = false) :
    ∃ msg, translate engine cache text src tgt = (.error msg, cache, false) ∧
      ((isSupported src = false ∧ msg = "Unsupported source language: " ++ src ∧
        strContains msg src) ∨
       (isSupported src = true ∧ isSupported tgt = false ∧
        msg = "Unsupported target language: " ++ tgt ∧ strContains msg tgt)) := by
  cases hsc : assocLookup LANG_CODE_MAP src with
  | none =>
    refine ⟨"Unsupported source language: " ++ src, by simp [translate, hmiss, hsc], ?_⟩
    exact Or.inl ⟨by simp [isSupported, hsc], rfl, strContains_append_right _ _⟩
  | some sc =>
    have hsT : isSupported src = true := by simp [isSupported, hsc]
    have htF : isSupported tgt = false := by
      rcases hbad with h | h
      · rw [hsT] at h; exact absurd h (by simp)
      · exact h
    have htc : assocLookup LANG_CODE_MAP tgt = none := by
      unfold isSupported at htF
      exact Option.not_isSome_iff_eq_none.mp (by simp [htF])
    refine ⟨"Unsupported target language: " ++ tgt, by simp [translate, hmiss, hsc, htc], ?_⟩
    exact Or.inr ⟨hsT, htF, rfl, strContains_append_right _ _⟩

/-- Witness for C3 at `("Hello", en, de)` on the empty cache. -/
theorem translate_unsupported_rejected_witness :
    cacheLookup [] ("en", "de", strip "Hello") = none ∧ isSupported "de" = false ∧
    (∃ msg, translate stubEngine [] "Hello" "en" "de" = (.error msg, [], false) ∧
      ((isSupported "en" = false ∧ msg = "Unsupported source language: " ++ "en" ∧
        strContains msg "en") ∨
       (isSupported "en" = true ∧ isSupported "de" = false ∧
        msg = "Unsupported target language: " ++ "de" ∧ strContains msg "de"))) :=
  ⟨rfl, by decide,
    translate_unsupported_rejected stubEngine [] "Hello" "en" "de" rfl (Or.inr (by decide))⟩

/-- Claim C4: cache keys are exact-match on the stripped text and
case-sensitive.  Translating `" Hello "` and then `"Hello"` uses one entry —
the second call is a cache hit with no engine invocation — while a subsequent
`"hello"` is a miss that invokes the engine and creates a second, distinct
entry. -/
theorem translate_key_sensitivity (engine : Engine) (cache : Cache) (src tgt : String)
    (hs : isSupported src = true) (ht : isSupported tgt = true)
    (h1 : cacheLookup cache (src, tgt, "Hello") = none)
    (h2 : cacheLookup cache (src, tgt, "hello") = none) :
    ∃ out, translate engine cache " Hello " src tgt =
        (.ok out, ((src, tgt, "Hello"), out) :: cache, true) ∧
      translate engine (((src, tgt, "Hello"), out) :: cache) "Hello" src tgt =
        (.ok out, ((src, tgt, "Hello"), out) :: cache, false) ∧
      ∃ out2, translate engine (((src, tgt, "Hello"), out) :: cache) "hello" src tgt =
        (.ok out2, ((src, tgt, "hello"), out2) :: ((src, tgt, "Hello"), out) :: cache, true) := by
  unfold isSupported at hs ht
  obtain ⟨sc, hsc⟩ := Option.isSome_iff_exists.mp hs
  obtain ⟨tc, htc⟩ := Option.isSome_iff_exists.mp ht
  have e1 : strip " Hello " = "Hello" := rfl
  have e2 : strip "Hello" = "Hello" := rfl
  have e3 : strip "hello" = "hello" := rfl
  have hne : ("Hello" : String) ≠ "hello" := by decide
  refine ⟨engine " Hello " sc tc, ?_, ?_, engine "hello" sc tc, ?_⟩
  · simp [translate, e1, h1, hsc, htc]
  · simp [translate, e2, cacheLookup]
  · simp [translate, e3, cacheLookup, hne, h2, hsc, htc]

/-- Witness for C4 with the pair `(en, hi)` on the empty cache. -/
theorem translate_key_sensitivity_witness :
    isSupported "en" = true ∧ isSupported "hi" = true ∧
    cacheLookup [] ("en", "hi", "Hello") = none ∧
    cacheLookup [] ("en", "hi", "hello") = none ∧
    (∃ out, translate stubEngine [] " Hello " "en" "hi" =
        (.ok out, (("en", "hi", "Hello"), out) :: [], true) ∧
      translate stubEngine ((("en", "hi", "Hello"), out) :: []) "Hello" "en" "hi" =
        (.ok out, (("en", "hi", "Hello"), out) :: [], false) ∧
      ∃ out2, translate stubEngine ((("en", "hi", "Hello"), out) :: []) "hello" "en" "hi" =
        (.ok out2, (("en", "hi", "hello"), out2) :: (("en", "hi", "Hello"), out) :: [], true)) :=
  ⟨by decide, by decide, rfl, rfl,
    translate_key_sensitivity stubEngine [] "en" "hi" (by decide) (by decide) rfl rfl⟩

/-- Claim C6: cache lookup precedes language-pair validation.  A call whose
key is already cached returns the cached string immediately, with no engine
invocation and no error, even when a language code is outside the supported
set. -/
theorem translate_hit_skips_validation (engine : Engine) (cache : Cache) (text src tgt v : String)
    (hhit : cacheLookup cache (src, tgt, strip text) = some v)
    (hbad : isSupported src = false ∨ isSupported tgt = false) :
    translate engine cache text src tgt = (.ok v, cache, false) := by
  simp [translate, hhit]

/-- Witness for C6: a pre-populated key with unsupported codes `(xx, de)`
returns the cached value. -/
theorem translate_hit_skips_validation_witness :
    cacheLookup [(("xx", "de", "Hello"), "cached")] ("xx", "de", strip "Hello") = some "cached" ∧
    isSupported "xx" = false ∧
    translate stubEngine [(("xx", "de", "Hello"), "cached")] "Hello" "xx" "de" =
      (.ok "cached", [(("xx", "de", "Hello"), "cached")], false) :=
  ⟨rfl, by decide,
    translate_hit_skips_validation stubEngine [(("xx", "de", "Hello"), "cached")]
      "Hello" "xx" "de" "cached" rfl (Or.inl (by decide))⟩

/-- Claim C9: the Translator itself does not special-case identity pairs.
For a supported language `l` and an uncached key, `translate text l l`
succeeds, invokes the engine, and stores the result in the cache. -/
theorem translate_identity_pair_attempted (engine : Engine) (cache : Cache) (text l : String)
    (hl : isSupported l = true)
    (hmiss : cacheLookup cache (l, l, strip text) = none) :
    ∃ out, translate engine cache text l l =
        (.ok out, ((l, l, strip text), out) :: cache, true) ∧
      cacheLookup (((l, l, strip text), out) :: cache) (l, l, strip text) = some out := by
  unfold isSupported at hl
  obtain ⟨lc, hlc⟩ := Option.isSome_iff_exists.mp hl
  exact ⟨engine text lc lc, by simp [translate, hmiss, hlc], by simp [cacheLookup]⟩

/-- Witness for C9 at `("Hello", en, en)` on the empty cache. -/
theorem translate_identity_pair_attempted_witness :
    isSupported "en" = true ∧ cacheLookup [] ("en", "en", strip "Hello") = none ∧
    (∃ out, translate stubEngine [] "Hello" "en" "en" =
        (.ok out, (("en", "en", strip "Hello"), out) :: [], true) ∧
      cacheLookup ((("en", "en", strip "Hello"), out) :: []) ("en", "en", strip "Hello") =
        some out) :=
  ⟨by decide, rfl,
    translate_identity_pair_attempted stubEngine [] "Hello" "en" (by decide) rfl⟩

/-! ### Claims about the Synthesizer -/

/-- The console line contains the upper-cased language code and the text. -/
lemma consoleLine_contains (text language : String) :
    strContains (consoleLine text language) (upper language) ∧
    strContains (consoleLine text language) text
  :=
  ⟨⟨"\n[".data, ("] " ++ text ++ "\n").data, by simp [consoleLine, String.data_append]⟩,
   ⟨("\n[" ++ upper language ++ "] ").data, "\n".data, by simp [consoleLine, String.data_append]⟩⟩

/-- When gTTS is disabled, unsupported, or failing, the gTTS stage ends in the
console print. -/
lemma gttsStage_console (env : TTSEnv) (text language : String) (p : Bool)
    (hg : env.useGttsFallback = false ∨ (assocLookup GTTS_LANG_MAP language).isSome = false ∨
      env.gttsOk = false) :
    (gttsStage env text language p).consolePrinted = some (consoleLine text language) := by
  unfold gttsStage
  by_cases h : env.useGttsFallback = true ∧ (assocLookup GTTS_LANG_MAP language).isSome = true
  · rw [if_pos h]
    have hk : env.gttsOk = false := by
      rcases hg with h1 | h1 | h1
      · rw [h.1] at h1; exact absurd h1 (by simp)
      · rw [h.2] at h1; exact absurd h1 (by simp)
      · exact h1
    simp [hk]
  · rw [if_neg h]

/-- Claim C7 (counterexample): with both backends present but failing, the
console announcement for `("Hello", "en")` is printed with the upper-cased
code, so it does not contain the language code `"en"` verbatim; and for a
whitespace-only text no announcement is printed at all. -/
theorem speak_console_counterexample :
    (speak ⟨true, true, false, false⟩ "Hello" "en").consolePrinted = some "\n[EN] Hello\n" ∧
    ¬ strContains "\n[EN] Hello\n" "en" ∧
    (speak ⟨true, true, false, false⟩ " " "en").consolePrinted = none :=
  ⟨rfl, by decide, rfl⟩

/-- Claim C7 (amended): for every text with a non-whitespace character and
every language code, when the pyttsx3 backend fails or is unavailable for the
language and the gTTS backend fails or is unavailable, `speak` returns
normally (it is a total function) after producing the console announcement,
which contains the upper-cased language code and the text. -/
theorem speak_console_fallback (env : TTSEnv) (text language : String)
    (htext : strip text ≠ "")
    (hp : env.pyttsx3Available = false ∨ language ≠ "en" ∨ env.pyttsx3Ok = false)
    (hg : env.useGttsFallback = false ∨ (assocLookup GTTS_LANG_MAP language).isSome = false ∨
      env.gttsOk = false) :
    (speak env text language).consolePrinted = some (consoleLine text language) ∧
    strContains (consoleLine text language) (upper language) ∧
    strContains (consoleLine text language) text := by
  refine ⟨?_, (consoleLine_contains text language).1, (consoleLine_contains text language).2⟩
  unfold speak
  rw [if_neg htext]
  by_cases hpa : env.pyttsx3Available = true ∧ language = "en"
  · rw [if_pos hpa]
    have hpk : env.pyttsx3Ok = false := by
      rcases hp with h1 | h1 | h1
      · rw [hpa.1] at h1; exact absurd h1 (by simp)
      · exact absurd hpa.2 h1
      · exact h1
    simp only [hpk, Bool.false_eq_true, if_false]
    exact gttsStage_console env text language true hg
  · rw [if_neg hpa]
    exact gttsStage_console env text language false hg

/-- Witness for the amended C7: pyttsx3 present but failing and gTTS failing
on `("Hello", "en")` produce the console announcement. -/
theorem speak_console_fallback_witness :
    strip "Hello" ≠ "" ∧
    ((speak ⟨true, true, false, false⟩ "Hello" "en").consolePrinted =
      some (consoleLine "Hello" "en") ∧
    strContains (consoleLine "Hello" "en") (upper "en") ∧
    strContains (consoleLine "Hello" "en") "Hello") :=
  ⟨by decide,
    speak_console_fallback ⟨true, true, false, false⟩ "Hello" "en" (by decide)
      (Or.inr (Or.inr rfl)) (Or.inr (Or.inr rfl))⟩

/-- Claim C10: for empty or whitespace-only text, `speak` returns immediately:
no backend is attempted and no console announcement is printed. -/
theorem speak_blank_text_noop (env : TTSEnv) (text language : String)
    (hblank : strip text = "") :
    speak env text language = ⟨false, false, none⟩ := by
  simp [speak, hblank]

/-- Witness for C10: a single-space text with all backends healthy. -/
theorem speak_blank_text_noop_witness :
    strip " " = "" ∧ speak ⟨true, true, true, true⟩ " " "en" = ⟨false, false, none⟩ :=
  ⟨rfl, speak_blank_text_noop ⟨true, true, true, true⟩ " " "en" rfl⟩

/-! ### Claims about the orchestrator -/

/-- The two supported-language checks of the code agree: membership in
`TranslatorLLM._call`'s list is membership in `MBARTTranslator.LANG_CODE_MAP`. -/
lemma isSupported_iff_mem (l : String) : isSupported l = true ↔ l ∈ supportedList := by
  constructor
  · intro h
    simp only [isSupported, LANG_CODE_MAP, assocLookup] at h
    split_ifs at h with h1 h2 h3 h4 h5
    · simp [supportedList, h1]
    · simp [supportedList, h2]
    · simp [supportedList, h3]
    · simp [supportedList, h4]
    · simp [supportedList, h5]
    · simp at h
  · intro h
    fin_cases h <;> decide

/-- With both codes supported, `llmCall` succeeds on any cache (as a hit or by
a validated engine call). -/
lemma llmCall_supported_ok (engine : Engine) (cache : Cache) (src tgt text : String)
    (hs : src ∈ supportedList) (ht : tgt ∈ supportedList) :
    ∃ out c b, llmCall engine cache src tgt text = (.ok out, c, b) := by
  unfold llmCall
  rw [if_pos hs, if_pos ht]
  unfold translate
  cases hlook : cacheLookup cache (src, tgt, strip (strip text)) with
  | some v => exact ⟨v, cache, false, by simp [hlook]⟩
  | none =>
    obtain ⟨sc, hsc⟩ := Option.isSome_iff_exists.mp ((isSupported_iff_mem src).mpr hs)
    obtain ⟨tc, htc⟩ := Option.isSome_iff_exists.mp ((isSupported_iff_mem tgt).mpr ht)
    exact ⟨engine (strip text) sc tc,
      ((src, tgt, strip (strip text)), engine (strip text) sc tc) :: cache, true,
      by simp [hlook, hsc, htc]⟩

/-- Unfolding one iteration of the run loop. -/
lemma runLoop_cons (cfg : Session) (cache : Cache) (inp : CycleInput) (rest : List CycleInput) :
    runLoop cfg cache (inp :: rest) =
      (runCycle cfg cache inp).2 :: runLoop cfg (runCycle cfg cache inp).1 rest := rfl

/-- A cycle input on which every stage is healthy: recording succeeds, the
chunk passes the speech gate, transcription succeeds with non-blank text, the
resolved source language differs from the target, and both codes of the
resolved pair are supported. -/
def Healthy (cfg : Session) (inp : CycleInput) : Prop :=
  ∃ audio t, inp.record = .ok audio ∧ hasSpeech audio = true ∧
    inp.transcript = .ok t ∧ strip t.text ≠ "" ∧
    resolveSrc cfg t ≠ cfg.tgtLang ∧
    resolveSrc cfg t ∈ supportedList ∧ cfg.tgtLang ∈ supportedList

/-- A healthy cycle runs to completion: all stages are invoked and the outcome
is `completed`, whatever the incoming cache. -/
lemma runCycle_healthy (cfg : Session) (cache : Cache) (inp : CycleInput)
    (h : Healthy cfg inp) :
    ∃ c tr sp, runCycle cfg cache inp = (c, ⟨.completed tr sp, true, true, true, false⟩) := by
  obtain ⟨audio, t, hrec, hgate, htr, hne, hneq, hsupS, hsupT⟩ := h
  obtain ⟨out, c, b, hllm⟩ :=
    llmCall_supported_ok cfg.engine cache (resolveSrc cfg t) cfg.tgtLang t.text hsupS hsupT
  refine ⟨c, out, speak inp.tts out cfg.tgtLang, ?_⟩
  simp [runCycle, hrec, hgate, htr, hne, hneq, hllm]

/-- Claim C2: the run loop catches every exception at the cycle boundary.
Every cycle input yields exactly one trace (nothing escapes the loop: its
length equals the number of cycles run), the cycle that fails records the
brief pause of the error handler, and an error in cycle N does not prevent a
healthy cycle N+1 from running to completion. -/
theorem cycle_error_isolation (cfg : Session) (cache : Cache) (i j : CycleInput)
    (rest : List CycleInput) (hj : Healthy cfg j) :
    (∀ (inputs : List CycleInput) (c : Cache), (runLoop cfg c inputs).length = inputs.length) ∧
    (∀ (c : Cache) (inp : CycleInput) (msg : String),
      (runCycle cfg c inp).2.outcome = .errored msg → (runCycle cfg c inp).2.paused = true) ∧
    ∃ tr sp, (runLoop cfg cache (i :: j :: rest))[1]? =
      some ⟨.completed tr sp, true, true, true, false⟩ := by
  refine ⟨?_, ?_, ?_⟩
  · intro inputs
    induction inputs with
    | nil => intro c; rfl
    | cons x xs ih =>
      intro c
      unfold runLoop
      simp [ih]
  · intro c inp msg h
    unfold runCycle at h ⊢
    rcases inp with ⟨rec, tr, tts⟩
    rcases rec with e | audio
    · rfl
    · simp only at h ⊢
      by_cases hgate : hasSpeech audio = true
      · simp only [hgate, if_true] at h ⊢
        rcases tr with e | t
        · rfl
        · simp only at h ⊢
          by_cases hblank : strip t.text = ""
          · simp [hblank] at h
          · simp only [hblank, if_false] at h ⊢
            by_cases hsame : resolveSrc cfg ⟨t.text, t.language⟩ = cfg.tgtLang
            · simp [hsame] at h
            · simp only [hsame, if_false] at h ⊢
              rcases hllm : llmCall cfg.engine c (resolveSrc cfg ⟨t.text, t.language⟩)
                  cfg.tgtLang t.text with ⟨res, c2, b⟩
              rcases res with e | out
              · simp [hllm] at h ⊢
              · simp [hllm] at h
      · simp [hgate] at h
  · rcases h1 : runCycle cfg cache i with ⟨c1, t1⟩
    obtain ⟨c2, tr, sp, h2⟩ := runCycle_healthy cfg c1 j hj
    refine ⟨tr, sp, ?_⟩
    simp [runLoop_cons, h1, h2]

/-- Session and cycle inputs used by the C2 witness: the first cycle's
transcription stage raises, the second is healthy. -/
def sessionW : Session := ⟨"en", "hi", stubEngine⟩

/-- First witness cycle: the speech gate passes and the transcriber raises. -/
def cycleErr : CycleInput := ⟨.ok [1], .error "TranscriptionError", ⟨true, true, true, true⟩⟩

/-- Second witness cycle: every stage healthy. -/
def cycleOk : CycleInput := ⟨.ok [1], .ok ⟨"Hello", "en"⟩, ⟨true, true, true, true⟩⟩

/-- Witness for C2: a transcription error in cycle 1 does not prevent the
healthy cycle 2 from completing. -/
theorem cycle_error_isolation_witness :
    Healthy sessionW cycleOk ∧
    ((∀ (inputs : List CycleInput) (c : Cache),
        (runLoop sessionW c inputs).length = inputs.length) ∧
     (∀ (c : Cache) (inp : CycleInput) (msg : String),
        (runCycle sessionW c inp).2.outcome = .errored msg →
        (runCycle sessionW c inp).2.paused = true) ∧
     ∃ tr sp, (runLoop sessionW [] [cycleErr, cycleOk])[1]? =
        some ⟨.completed tr sp, true, true, true, false⟩) := by
  have h : Healthy sessionW cycleOk :=
    ⟨[1], ⟨"Hello", "en"⟩, rfl, hasSpeech_loud, rfl, by decide, by decide, by decide, by decide⟩
  exact ⟨h, cycle_error_isolation sessionW [] cycleErr cycleOk [] h⟩

/-- Claim C5: a cycle whose resolved effective source language equals the
configured target language is aborted before translation: the Translator and
the Synthesizer are not invoked, the cache is unchanged, and the loop
continues with the next cycle. -/
theorem identity_pair_skipped (cfg : Session) (cache : Cache) (inp : CycleInput)
    (rest : List CycleInput) (audio : List ℚ) (t : Transcript)
    (hrec : inp.record = .ok audio) (hgate : hasSpeech audio = true)
    (htr : inp.transcript = .ok t) (hne : strip t.text ≠ "")
    (heq : resolveSrc cfg t = cfg.tgtLang) :
    runCycle cfg cache inp = (cache, ⟨.sameLanguage cfg.tgtLang, true, false, false, false⟩) ∧
    runLoop cfg cache (inp :: rest) =
      ⟨.sameLanguage cfg.tgtLang, true, false, false, false⟩ :: runLoop cfg cache rest := by
  have h1 : runCycle cfg cache inp =
      (cache, ⟨.sameLanguage cfg.tgtLang, true, false, false, false⟩) := by
    simp [runCycle, hrec, hgate, htr, hne, heq]
  refine ⟨h1, ?_⟩
  rw [runLoop_cons, h1]

/-- Session used by the C5 witness: auto-detected source resolving to the
target language. -/
def sessionAuto : Session := ⟨"auto", "en", stubEngine⟩

/-- Cycle input for the C5 witness: the detected language `"EN-us"`
normalizes to the target `"en"`. -/
def cycleSame : CycleInput := ⟨.ok [1], .ok ⟨"Hi", "EN-us"⟩, ⟨true, true, true, true⟩⟩

/-- Witness for C5: a detected `"EN-us"` with target `"en"` aborts the cycle
with no translator or synthesizer call. -/
theorem identity_pair_skipped_witness :
    hasSpeech [1] = true ∧ resolveSrc sessionAuto ⟨"Hi", "EN-us"⟩ = "en" ∧
    (runCycle sessionAuto [] cycleSame =
      ([], ⟨.sameLanguage "en", true, false, false, false⟩) ∧
    runLoop sessionAuto [] (cycleSame :: []) =
      ⟨.sameLanguage "en", true, false, false, false⟩ :: runLoop sessionAuto [] []) :=
  ⟨hasSpeech_loud, rfl,
    identity_pair_skipped sessionAuto [] cycleSame [] [1] ⟨"Hi", "EN-us"⟩ rfl
      hasSpeech_loud rfl (by decide) rfl⟩

/-- Claim C8: the speech-gate decision is exactly the comparison of the
chunk's root-mean-square energy with the fixed threshold 0.01, and a cycle
whose chunk fails the gate skips the rest of the pipeline: no transcriber,
translator, or synthesizer call, and the cache is unchanged. -/
theorem gate_rms_short_circuit (audio : List ℚ) (cfg : Session) (cache : Cache)
    (inp : CycleInput) (a : List ℚ)
    (hrec : inp.record = .ok a) (hgate : hasSpeech a = false) :
    (hasSpeech audio = true ↔ HasSpeechRms audio) ∧
    runCycle cfg cache inp = (cache, ⟨.noSpeech, false, false, false, false⟩) := by
  constructor
  · unfold hasSpeech HasSpeechRms
    rw [decide_eq_true_eq]
    rw [Real.lt_sqrt (by norm_num : (0 : ℝ) ≤ 1 / 100)]
    have hsq : ((1 : ℝ) / 100) ^ 2 = ((1 / 10000 : ℚ) : ℝ) := by norm_num
    rw [hsq, Rat.cast_lt]
  · simp [runCycle, hrec, hgate]

/-- Witness for C8: the silent chunk `[0]` fails the gate and the cycle skips
every stage. -/
theorem gate_rms_short_circuit_witness :
    hasSpeech [0] = false ∧
    ((hasSpeech [1] = true ↔ HasSpeechRms [1]) ∧
      runCycle sessionW [] ⟨.ok [0], .ok ⟨"Hello", "en"⟩, ⟨true, true, true, true⟩⟩ =
        ([], ⟨.noSpeech, false, false, false, false⟩)) :=
  ⟨hasSpeech_silent,
    gate_rms_short_circuit [1] sessionW [] ⟨.ok [0], .ok ⟨"Hello", "en"⟩, ⟨true, true, true, true⟩⟩
      [0] rfl hasSpeech_silent⟩

end Sakhi
